import Mathlib

/-!
Verification of the CSV → GeoJSON conversion pipeline of `nrl-sdk-lib`
(`src/nrl_sdk_lib/converters/csv_to_geojson.py`), as a shallow embedding.

Numbers are embedded as rationals (the source manipulates decimal text and
Python floats; every claim concerns exact decimal values well inside the
range where the embedding is faithful).  Python exceptions are embedded as
an explicit error type threaded through `Except`.
-/

set_option maxRecDepth 4096

deriving instance DecidableEq for Except

namespace Nrl

/-! ### Embedding of the Python primitives used by the converter -/

/-- A CSV row as produced by `csv.DictReader`: an association list from
column name to cell value; a cell can hold `none` (Python `None`, the
`DictReader` rest-value for short rows). -/
abbrev Row := List (String × Option String)

/-- `row.get(k)`: `None` both when the key is absent and when the stored
value is `None`. -/
def rowGet (row : Row) (k : String) : Option String :=
  (row.lookup k).join

/-- `row.get(k, d)`: the default applies only when the key is absent. -/
def rowGetD (row : Row) (k : String) (d : String) : Option String :=
  match row.lookup k with
  | none => some d
  | some v => v

/-- Python truthiness of an optional string: `None` and `""` are falsy. -/
def truthy : Option String → Bool
  | none => false
  | some s => s ≠ ""

/-- The Python exceptions the converter can raise or observe. -/
inductive PyErr where
  | valueError (msg : String)
  | keyError (key : String)
  | indexError (msg : String)
deriving DecidableEq, Repr

/-- `row[k]`: the stored value, or a `KeyError` when the column is absent. -/
def rowItem (row : Row) (k : String) : Except PyErr (Option String) :=
  match row.lookup k with
  | none => .error (.keyError k)
  | some v => .ok v

/-- Render an optional string the way a Python f-string renders
`str | None`. -/
def optRepr : Option String → String
  | none => "None"
  | some s => s

/-- Numeric value of a decimal digit list (most significant first). -/
def digitsToNat (ds : List Char) : Nat :=
  ds.foldl (fun a c => a * 10 + (c.toNat - 48)) 0

/-- The rational `sgn * d(ip).d(fdigits) * 10^exp` (built from integer
arithmetic and a single `mkRat`, the normal form of the parsed decimal). -/
def ratOfParts (sgn : Int) (ip fdigits : List Char) (exp : Int) : ℚ :=
  let num : Int := sgn * (digitsToNat (ip ++ fdigits) : Int)
  let den : Nat := 10 ^ fdigits.length
  if 0 ≤ exp then mkRat (num * 10 ^ exp.toNat) den
  else mkRat num (den * 10 ^ (-exp).toNat)

/-- The exponent suffix of the `float()` grammar: optional sign, one or
more digits, nothing after. -/
def pyExp? (cs : List Char) : Option Int :=
  let (esgn, cs) : Int × List Char :=
    match cs with
    | '-' :: rest => (-1, rest)
    | '+' :: rest => (1, rest)
    | _ => (1, cs)
  let (eds, cs) := cs.span Char.isDigit
  if eds.isEmpty ∨ ¬ cs.isEmpty then none
  else some (esgn * (digitsToNat eds : Int))

/-- Models CPython `float()` on plain decimal/exponent notation:
optional sign, an integer part and/or a fractional part (at least one
digit overall), and an optional decimal exponent.  Whitespace trimming,
underscores and `inf`/`nan` are not modelled; no claim exercises them. -/
def pyFloat? (s : String) : Option ℚ :=
  let cs := s.data
  let (sgn, cs) : Int × List Char :=
    match cs with
    | '-' :: rest => (-1, rest)
    | '+' :: rest => (1, rest)
    | _ => (1, cs)
  let (ip, cs) := cs.span Char.isDigit
  let (fp, cs) : Option (List Char) × List Char :=
    match cs with
    | '.' :: rest =>
      let (fs, rest') := rest.span Char.isDigit
      (some fs, rest')
    | _ => (none, cs)
  let fdigits := fp.getD []
  if ip.isEmpty ∧ fdigits.isEmpty then none
  else
    match cs with
    | [] => some (ratOfParts sgn ip fdigits 0)
    | 'e' :: rest => (pyExp? rest).map (ratOfParts sgn ip fdigits)
    | 'E' :: rest => (pyExp? rest).map (ratOfParts sgn ip fdigits)
    | _ => none

/-- `value.replace(",", ".")` (single-character pattern, so a plain
character map). -/
def commaToDot (s : String) : String :=
  ⟨s.data.map fun c => if c = ',' then '.' else c⟩

/-- `float(s.replace(",", "."))` as used throughout the converter. -/
def floatOfStr? (s : String) : Option ℚ :=
  pyFloat? (commaToDot s)

/-- Value of a hexadecimal digit. -/
def hexVal? (c : Char) : Option Nat :=
  if '0' ≤ c ∧ c ≤ '9' then some (c.toNat - 48)
  else if 'a' ≤ c ∧ c ≤ 'f' then some (c.toNat - 87)
  else if 'A' ≤ c ∧ c ≤ 'F' then some (c.toNat - 55)
  else none

/-- `dropPat? pat cs`: the remainder of `cs` when `pat` is a prefix. -/
def dropPat? : List Char → List Char → Option (List Char)
  | [], cs => some cs
  | _ :: _, [] => none
  | p :: ps, c :: cs => if c = p then dropPat? ps cs else none

/-- `str.replace(pat, "")`, fuel-indexed (the fuel `cs.length` suffices for
the non-empty patterns the UUID parser removes). -/
def removeAllFuel (pat : List Char) : Nat → List Char → List Char
  | 0, cs => cs
  | _ + 1, [] => []
  | n + 1, c :: rest =>
    match dropPat? pat (c :: rest) with
    | some rest' => removeAllFuel pat n rest'
    | none => c :: removeAllFuel pat n rest

/-- Remove every occurrence of `pat` (left to right, non-overlapping). -/
def removeAll (pat : String) (s : List Char) : List Char :=
  removeAllFuel pat.toList s.length s

/-- Python `str.strip("{}")`: drop braces from both ends. -/
def stripBraces (cs : List Char) : List Char :=
  let isBrace := fun c => c = '{' ∨ c = '}'
  ((cs.dropWhile isBrace).reverse.dropWhile isBrace).reverse

/-- Models CPython `uuid.UUID(s)`: remove `urn:` and `uuid:`, strip braces,
remove hyphens, then require exactly 32 hexadecimal digits; the result is
the 128-bit value. -/
def pyUUID? (s : String) : Option Nat :=
  let hex := removeAll "-" (stripBraces (removeAll "uuid:" (removeAll "urn:" s.toList)))
  if hex.length = 32 then
    hex.foldlM (fun a c => (hexVal? c).map fun v => a * 16 + v) 0
  else none

/-! ### Data model (`nrl_sdk_lib.models`)

The `models` package is consumed as already-given typed records; the shapes
below mirror exactly the constructors and fields the converter uses. -/

/-- CRS properties: the CRS name string. -/
structure CrsProperties where
  name : String
deriving DecidableEq, Repr

/-- A named CRS. -/
structure Crs where
  properties : CrsProperties
deriving DecidableEq, Repr

/-- `Point` / `LineString` geometry (the `type` tag is the constructor). -/
inductive Geometry where
  | point (coordinates : List ℚ)
  | lineString (coordinates : List (List ℚ))
deriving DecidableEq, Repr

inductive LuftspennType where
  | hogspent | lavspent | regional | bardun
deriving DecidableEq, Repr

inductive MastType where
  | hogspentmast | lavspentmast | regionalmast
deriving DecidableEq, Repr

inductive FeatureStatus where
  | eksisterende | planlagt_oppfort | planlagt_fjernet | fjernet
deriving DecidableEq, Repr

inductive LuftfartsHinderLyssetting where
  | lyssatt
  | mellomintensitet_type_a | mellomintensitet_type_b | mellomintensitet_type_c
  | lavintensitet_type_a | lavintensitet_type_b
  | hoyintensitet_type_a | hoyintensitet_type_b
deriving DecidableEq, Repr

inductive LuftfartsHinderMerking where
  | fargermerking | markor
deriving DecidableEq, Repr

inductive Hoydereferanse where
  | topp | fot
deriving DecidableEq, Repr

/-- Cross-reference to a source component code. -/
structure KomponentReferanse where
  komponentkodeverdi : String
deriving DecidableEq, Repr

/-- Properties of a mast feature (UUIDs as 128-bit values). -/
structure NrlMast where
  komponentident : Nat
  status : FeatureStatus
  verifisert_rapporteringsnoyaktighet : String
  feature_type : String
  mast_type : MastType
  luftfartshinderlyssetting : Option LuftfartsHinderLyssetting
  luftfartshindermerking : Option LuftfartsHinderMerking
  hoydereferanse : Option Hoydereferanse
  vertikal_avstand : Option ℚ
deriving DecidableEq, Repr

/-- Properties of a line-span feature. -/
structure NrlLuftspenn where
  luftspenn_type : LuftspennType
  komponentident : Nat
  nrl_mast : List Nat := []
  status : FeatureStatus
  verifisert_rapporteringsnoyaktighet : String
  feature_type : String
  referanse : Option KomponentReferanse := none
  luftfartshinderlyssetting : Option LuftfartsHinderLyssetting := none
  luftfartshindermerking : Option LuftfartsHinderMerking := none
  anleggsbredde : Option ℚ := none
deriving DecidableEq, Repr

/-- The typed properties variant of a feature. -/
inductive FeatureProps where
  | mast (m : NrlMast)
  | luftspenn (l : NrlLuftspenn)
deriving DecidableEq, Repr

/-- A GeoJSON feature. -/
structure Feature where
  geometry : Geometry
  properties : FeatureProps
deriving DecidableEq, Repr

/-- A GeoJSON feature collection tagged with its CRS. -/
structure FeatureCollection where
  crs : Crs
  features : List Feature
deriving DecidableEq, Repr

/-! ### Enumeration resolvers (`map_*` functions of the converter) -/

/-- `map_luftspenn_type`. -/
def map_luftspenn_type (value : Option String) : Except PyErr LuftspennType :=
  if value = some "Ledning, høyspent" then .ok .hogspent
  else if value = some "Ledning, lavspent" then .ok .lavspent
  else if value = some "Ledning, regionalnett" then .ok .regional
  else .error (.valueError ("Unknown Luftspenntype: " ++ optRepr value))

/-- `map_mast_type`. -/
def map_mast_type (value : Option String) : Except PyErr MastType :=
  if value = some "Mast, høyspent" then .ok .hogspentmast
  else if value = some "Mast, lavspent" then .ok .lavspentmast
  else if value = some "Mast, regionalnett" then .ok .regionalmast
  else .error (.valueError ("Unknown Masttype: " ++ optRepr value))

/-- `map_feature_status`. -/
def map_feature_status (value : Option String) : Except PyErr FeatureStatus :=
  if value = some "Eksisterende" ∨ value = some "eksisterende" then .ok .eksisterende
  else if value = some "Planlagt oppført" ∨ value = some "planlagtOppført" then
    .ok .planlagt_oppfort
  else if value = some "Planlagt fjernet" ∨ value = some "planlagtFjernet" then
    .ok .planlagt_fjernet
  else if value = some "Fjernet" ∨ value = some "fjernet" then .ok .fjernet
  else .error (.valueError ("Unknown Status: " ++ optRepr value))

/-- `map_lighting_kind` (optional: falsy input and unmapped input both give
`none`). -/
def map_lighting_kind (value : Option String) : Option LuftfartsHinderLyssetting :=
  if ¬ truthy value then none
  else if value = some "Lyssatt" then some .lyssatt
  else if value = some "Mellomintensitet, type A" then some .mellomintensitet_type_a
  else if value = some "Mellomintensitet, type B" then some .mellomintensitet_type_b
  else if value = some "Mellomintensitet, type C" then some .mellomintensitet_type_c
  else if value = some "Lavintensitet, type A" then some .lavintensitet_type_a
  else if value = some "Lavintensitet, type B" then some .lavintensitet_type_b
  else if value = some "Høyintensitet, type A" then some .hoyintensitet_type_a
  else if value = some "Høyintensitet, type B" then some .hoyintensitet_type_b
  else none

/-- `map_marking_kind` (optional, same shape as `map_lighting_kind`). -/
def map_marking_kind (value : Option String) : Option LuftfartsHinderMerking :=
  if ¬ truthy value then none
  else if value = some "Fargemerking" then some .fargermerking
  else if value = some "Markør" then some .markor
  else none

/-- `map_location_method`. -/
def map_location_method (value : Option String) : String :=
  if value = some "FOR-2020-10-16-2068, §5(1)" then "20230101_5-1" else "0"

/-! ### Value coercion (`get_uuid`, `parse_float`, `parse_coordinates`) -/

/-- Render the attempted field names in the `get_uuid` failure message. -/
def joinWith (sep : String) : List String → String
  | [] => ""
  | [s] => s
  | s :: rest => s ++ sep ++ joinWith sep rest

/-- Python `str.lower()` (ASCII case folding suffices here). -/
def pyLower (s : String) : String :=
  ⟨s.data.map Char.toLower⟩

/-- The field-scanning loop inside `get_uuid`: first truthy field whose
value parses as a UUID; malformed values are skipped (`except ValueError:
continue`). -/
def get_uuid_go (row : Row) : List String → Option Nat
  | [] => none
  | f :: rest =>
    match rowGet row f with
    | some v =>
      if v ≠ "" then
        match pyUUID? v with
        | some u => some u
        | none => get_uuid_go row rest
      else get_uuid_go row rest
    | none => get_uuid_go row rest

/-- `get_uuid(row, *fields)`. -/
def get_uuid (row : Row) (fields : List String) : Except PyErr Nat :=
  match get_uuid_go row fields with
  | some u => .ok u
  | none =>
    .error (.valueError ("No valid UUID found in fields: " ++ joinWith ", " fields))

/-- `parse_float(value, field_name)`. -/
def parse_float (value : Option String) (field_name : String) : Except PyErr ℚ :=
  match value with
  | none => .error (.valueError ("Missing " ++ field_name))
  | some v =>
    match floatOfStr? v with
    | some q => .ok q
    | none => .error (.valueError (field_name ++ " is not a valid number: " ++ v))

/-- `parse_coordinates(coords)`: keep the cells that are non-empty strings
and convert each through `float(c.replace(",", "."))`; a conversion
failure raises `ValueError`. -/
def parse_coordinates (coords : List (Option String)) : Except PyErr (List ℚ) :=
  (coords.filterMap fun c =>
      match c with
      | some s => if s ≠ "" then some s else none
      | none => none).mapM fun s =>
    match floatOfStr? s with
    | some q => Except.ok q
    | none => Except.error (.valueError ("could not convert string to float: " ++ s))

/-! ### Geometry & CRS builder (`create_geometry`) -/

/-- A raw coordinate triple `[x, y, z]` as the converters build it. -/
abbrev RawCoord := Option String × Option String × Option String

/-- The triple as the Python 3-element list. -/
def tripleToList (c : RawCoord) : List (Option String) :=
  [c.1, c.2.1, c.2.2]

/-- `coord[2] not in [None, ""]`: a non-empty third component. -/
def hasZcoord (c : RawCoord) : Bool :=
  match c.2.2 with
  | none => false
  | some s => s ≠ ""

/-- The `except ValueError as e: raise ValueError(f"Invalid coordinate
values: {e}")` wrapper around the coordinate-parsing region. -/
def wrapCoordError {α : Type} : Except PyErr α → Except PyErr α
  | .error (.valueError m) => .error (.valueError ("Invalid coordinate values: " ++ m))
  | r => r

def crs25832 : Crs := { properties := { name := "EPSG:25832" } }
def crs5972 : Crs := { properties := { name := "EPSG:5972" } }

/-- `x, y, z = parse_coordinates(...)` (unpacking a parsed list of at most
three values into exactly three). -/
def unpack3 (vals : List ℚ) : Except PyErr (ℚ × ℚ × ℚ) :=
  match vals with
  | [x, y, z] => .ok (x, y, z)
  | _ => .error (.valueError "not enough values to unpack")

/-- `x, y = parse_coordinates(...)`. -/
def unpack2 (vals : List ℚ) : Except PyErr (ℚ × ℚ) :=
  match vals with
  | [x, y] => .ok (x, y)
  | _ => .error (.valueError "not enough values to unpack")

/-- `create_geometry(coordinates, is_line)`. -/
def create_geometry (coordinates : List RawCoord) (is_line : Bool := true) :
    Except PyErr (Geometry × Crs) :=
  let has_z := coordinates.all hasZcoord
  if is_line ∧ coordinates.length ≠ 2 then
    .error (.valueError "LineString requires exactly 2 points")
  else
    wrapCoordError (
      if has_z then
        if is_line then do
          let coords ← coordinates.mapM fun c => do
            let y ← parse_float c.2.1 "y"
            let x ← parse_float c.1 "x"
            let z ← parse_float c.2.2 "z"
            pure [y, x, z]
          pure (Geometry.lineString coords, crs5972)
        else
          match coordinates.head? with
          | none => .error (.indexError "list index out of range")
          | some c0 => do
            let vals ← parse_coordinates (tripleToList c0)
            let (x, y, z) ← unpack3 vals
            pure (Geometry.point [y, x, z], crs5972)
      else
        if is_line then do
          let coords ← coordinates.mapM fun c => do
            let y ← parse_float c.2.1 "y"
            let x ← parse_float c.1 "x"
            pure [y, x]
          pure (Geometry.lineString coords, crs25832)
        else
          match coordinates.head? with
          | none => .error (.indexError "list index out of range")
          | some c0 => do
            let vals ← parse_coordinates ((tripleToList c0).take 2)
            let (x, y) ← unpack2 vals
            pure (Geometry.point [y, x], crs25832))

/-! ### Row classifier & feature assemblers -/

/-- `convert_overhead_structure_rows(row)`. -/
def convert_overhead_structure_rows (row : Row) : Except PyErr (Feature × Crs) := do
  let komponentident ← get_uuid row ["OverheadStructure_uuid", "ID"]
  let masttype ← map_mast_type (rowGet row "Masttype (NRL)")
  let feature_status ← map_feature_status (rowGet row "Status (NRL)")
  let noyaktighet := map_location_method (rowGet row "Verifisert nøyaktighet (NRL)")
  let lyssetting := map_lighting_kind (rowGet row "Luftfartshinderlyssetting(NRL)")
  let merking := map_marking_kind (rowGet row "Luftfartshindermerking (NRL)")
  let hoydereferanse : Option Hoydereferanse :=
    if truthy (rowGet row "Hoydereferanse (NRL)") then
      let s := (rowGet row "Hoydereferanse (NRL)").getD ""
      if pyLower s = "topp" then some .topp
      else if pyLower s = "fot" then some .fot
      else none
    else none
  let max_height : Option ℚ ←
    if truthy (rowGet row "Vertikalavstand meter (NRL)") then do
      let v ← rowItem row "Vertikalavstand meter (NRL)"
      let q ← parse_float v "Vertikalavstand"
      pure (some q)
    else pure none
  let x ← rowItem row "x"
  let y ← rowItem row "y"
  let z := rowGetD row "z" ""
  let (point, crs) ← create_geometry [(x, y, z)] false
  pure ({ geometry := point,
          properties := .mast {
            komponentident := komponentident,
            status := feature_status,
            verifisert_rapporteringsnoyaktighet := noyaktighet,
            feature_type := "NrlMast",
            mast_type := masttype,
            luftfartshinderlyssetting := lyssetting,
            luftfartshindermerking := merking,
            hoydereferanse := hoydereferanse,
            vertikal_avstand := max_height } }, crs)

/-- `row.get("ID")`-guarded `KomponentReferanse` construction shared by the
two span converters. -/
def komponentreferanseOf (row : Row) : Option KomponentReferanse :=
  if truthy (rowGet row "ID") then
    some { komponentkodeverdi := (rowGetD row "ID" "").getD "" }
  else none

/-- `convert_guy_segments_rows(row)`. -/
def convert_guy_segments_rows (row : Row) : Except PyErr (Feature × Crs) := do
  let komponentident ← get_uuid row ["Guy_uuid", "ID"]
  let feature_status ← map_feature_status (rowGet row "Status (NRL)")
  let noyaktighet := map_location_method (rowGet row "Vertikalavstand meter (NRL)")
  let x1 ← rowItem row "x1"
  let y1 ← rowItem row "y1"
  let z1 := rowGetD row "z1" ""
  let x2 ← rowItem row "x2"
  let y2 ← rowItem row "y2"
  let z2 := rowGetD row "z2" ""
  let (linestring, crs) ← create_geometry [(x1, y1, z1), (x2, y2, z2)] true
  let komponentreferanse := komponentreferanseOf row
  pure ({ geometry := linestring,
          properties := .luftspenn {
            luftspenn_type := .bardun,
            komponentident := komponentident,
            status := feature_status,
            verifisert_rapporteringsnoyaktighet := noyaktighet,
            feature_type := "NrlLuftspenn",
            referanse := komponentreferanse } }, crs)

/-- `convert_ac_linesegments_rows(row)`.  The lighting/marking resolvers
are called on the literal field-name strings, exactly as in the source
(lines 351–356), not on `row.get(...)`. -/
def convert_ac_linesegments_rows (row : Row) : Except PyErr (Feature × Crs) := do
  let komponentident ← get_uuid row ["ACLineSegmentSpan_uuid", "ID"]
  let feature_status ← map_feature_status (rowGet row "Status (NRL)")
  let luftspennstype ← map_luftspenn_type (rowGet row "Luftspenntype (NRL)")
  let noyaktighet := map_location_method (rowGet row "Verifisert nøyaktighet (NRL)")
  let lyssetting := map_lighting_kind (some "Luftfartshinderlyssetting(NRL)")
  let merking := map_marking_kind (some "Luftfartshindermerking(NRL)")
  let x1 ← rowItem row "x1"
  let y1 ← rowItem row "y1"
  let z1 := rowGetD row "z1" ""
  let x2 ← rowItem row "x2"
  let y2 ← rowItem row "y2"
  let z2 := rowGetD row "z2" ""
  let (linestring, crs) ← create_geometry [(x1, y1, z1), (x2, y2, z2)] true
  let mast ← (["Mast_1_ObjectID", "Mast_2_ObjectID"].filterMap fun f =>
      match rowGet row f with
      | some s => if s ≠ "" then some s else none
      | none => none).mapM fun s =>
    match pyUUID? s with
    | some u => Except.ok u
    | none => Except.error (.valueError "badly formed hexadecimal UUID string")
  let komponentreferanse := komponentreferanseOf row
  let anleggsbredde : Option ℚ ←
    if truthy (rowGet row "Anleggsbredde meter (NRL)") then do
      let v ← rowItem row "Anleggsbredde meter (NRL)"
      let q ← parse_float v "Anleggsbredde"
      pure (some q)
    else pure none
  pure ({ geometry := linestring,
          properties := .luftspenn {
            luftspenn_type := luftspennstype,
            komponentident := komponentident,
            nrl_mast := mast,
            status := feature_status,
            verifisert_rapporteringsnoyaktighet := noyaktighet,
            feature_type := "NrlLuftspenn",
            referanse := komponentreferanse,
            luftfartshinderlyssetting := lyssetting,
            luftfartshindermerking := merking,
            anleggsbredde := anleggsbredde } }, crs)

/-- `process_row(row)`: two-level dispatch on `Tabell ID` and
`Betegnelse`. -/
def process_row (row : Row) : Except PyErr (Feature × Crs) :=
  let table_id := rowGet row "Tabell ID"
  if table_id = some "261" then
    match row.lookup "Betegnelse" with
    | none => .error (.keyError "Betegnelse")
    | some v =>
      if v = some "Bardunline" then convert_guy_segments_rows row
      else convert_ac_linesegments_rows row
  else if table_id = some "109" then
    convert_overhead_structure_rows row
  else
    .error (.valueError ("Unknown Tabell ID: " ++ optRepr table_id))

/-! ### Collection grouper (`_process_csv_file`) -/

/-- `feature_by_crs.setdefault(crs_name, []).append(feature)` on an
insertion-ordered association list (Python dicts preserve insertion
order). -/
def insertByCrs : List (String × List Feature) → String → Feature →
    List (String × List Feature)
  | [], name, f => [(name, [f])]
  | (k, fs) :: rest, name, f =>
    if k = name then (k, fs ++ [f]) :: rest
    else (k, fs) :: insertByCrs rest name f

/-- The accumulation loop of `_process_csv_file` over the parsed rows. -/
def processLoop (rows : List Row) : Except PyErr (List (String × List Feature)) :=
  rows.foldlM
    (fun acc row => do
      let (feature, crs) ← process_row row
      pure (insertByCrs acc crs.properties.name feature))
    []

/-- `_process_csv_file`: accumulate features keyed by CRS name, then emit
one `FeatureCollection` per key in insertion order. -/
def _process_csv_file (rows : List Row) : Except PyErr (List FeatureCollection) := do
  let grouped ← processLoop rows
  pure (grouped.map fun p =>
    { crs := { properties := { name := p.1 } }, features := p.2 })

/-! ### Spec-side definitions (used to state the claims) -/

/-- The CRS names of a list of converted records, in record order. -/
def crsNames (pairs : List (Feature × Crs)) : List String :=
  pairs.map fun p => p.2.properties.name

/-- The distinct values of a list in first-occurrence order. -/
def firstSeen (names : List String) : List String :=
  names.foldl (fun acc n => if n ∈ acc then acc else acc ++ [n]) []

/-- Specification-side description of the Collection Grouper (spec §4.5),
stated independently of the accumulation loop: one collection per CRS name
in first-occurrence order, each holding the features converted to that CRS
in input-record order, nothing deduplicated, dropped or moved.  The claim
theorem proves the code's grouper equal to this description. -/
def groupSpec (pairs : List (Feature × Crs)) : List FeatureCollection :=
  (firstSeen (crsNames pairs)).map fun n =>
    { crs := { properties := { name := n } },
      features := (pairs.filter fun p => p.2.properties.name = n).map Prod.fst }

/-- A coordinate position's dimensionality is consistent with a CRS tag:
3 components under `EPSG:5972`, 2 under `EPSG:25832`. -/
def coordDimOk (name : String) (c : List ℚ) : Prop :=
  (name = "EPSG:5972" → c.length = 3) ∧ (name = "EPSG:25832" → c.length = 2)

/-- A geometry's dimensionality is consistent with a CRS tag. -/
def geomDimOk (name : String) : Geometry → Prop
  | .point c => coordDimOk name c
  | .lineString cs => ∀ c ∈ cs, coordDimOk name c

/-- The accepted source strings of the required status enum. -/
def statusKeys : List (Option String) :=
  [some "Eksisterende", some "eksisterende", some "Planlagt oppført",
   some "planlagtOppført", some "Planlagt fjernet", some "planlagtFjernet",
   some "Fjernet", some "fjernet"]

/-- The accepted source strings of the required mast-type enum. -/
def mastKeys : List (Option String) :=
  [some "Mast, høyspent", some "Mast, lavspent", some "Mast, regionalnett"]

/-- The accepted source strings of the required span-type enum. -/
def spanKeys : List (Option String) :=
  [some "Ledning, høyspent", some "Ledning, lavspent", some "Ledning, regionalnett"]

/-- The accepted source strings of the optional lighting enum. -/
def lightingKeys : List String :=
  ["Lyssatt", "Mellomintensitet, type A", "Mellomintensitet, type B",
   "Mellomintensitet, type C", "Lavintensitet, type A", "Lavintensitet, type B",
   "Høyintensitet, type A", "Høyintensitet, type B"]

/-- The accepted source strings of the optional marking enum. -/
def markingKeys : List String :=
  ["Fargemerking", "Markør"]

/-! ### Concrete example records -/

/-- An overhead-structure record with elevation (`z` non-empty). -/
def mastRow3D : Row :=
  [("Tabell ID", some "109"),
   ("OverheadStructure_uuid", some "550e8400-e29b-41d4-a716-446655440000"),
   ("Masttype (NRL)", some "Mast, lavspent"),
   ("Status (NRL)", some "Eksisterende"),
   ("x", some "100"), ("y", some "200"), ("z", some "10")]

/-- An overhead-structure record without elevation (`z` empty). -/
def mastRow2D : Row :=
  [("Tabell ID", some "109"),
   ("OverheadStructure_uuid", some "550e8400-e29b-41d4-a716-446655440001"),
   ("Masttype (NRL)", some "Mast, lavspent"),
   ("Status (NRL)", some "Eksisterende"),
   ("x", some "100"), ("y", some "200"), ("z", some "")]

/-- An AC-line-segment record whose lighting and marking fields hold
accepted source strings. -/
def acRowLit : Row :=
  [("Tabell ID", some "261"),
   ("Betegnelse", some "Ledning"),
   ("ACLineSegmentSpan_uuid", some "550e8400-e29b-41d4-a716-446655440002"),
   ("Status (NRL)", some "Eksisterende"),
   ("Luftspenntype (NRL)", some "Ledning, lavspent"),
   ("Luftfartshinderlyssetting(NRL)", some "Lyssatt"),
   ("Luftfartshindermerking(NRL)", some "Markør"),
   ("x1", some "100"), ("y1", some "200"), ("z1", some "10"),
   ("x2", some "300"), ("y2", some "400"), ("z2", some "20")]

/-- A record whose `Tabell ID` is neither `109` nor `261`. -/
def unknownRow : Row :=
  [("Tabell ID", some "999"), ("x", some "1")]

/-- A guy-wire segment record (sub-type label `Bardunline`). -/
def guyRow : Row :=
  [("Tabell ID", some "261"),
   ("Betegnelse", some "Bardunline"),
   ("Guy_uuid", some "550e8400-e29b-41d4-a716-446655440003"),
   ("Status (NRL)", some "Eksisterende"),
   ("x1", some "1"), ("y1", some "2"), ("z1", some ""),
   ("x2", some "3"), ("y2", some "4"), ("z2", some "")]

/-- The feature `guyRow` converts to. -/
def guyFeature : Feature :=
  { geometry := .lineString [[2, 1], [4, 3]],
    properties := .luftspenn {
      luftspenn_type := .bardun,
      komponentident := 0x550e8400e29b41d4a716446655440003,
      status := .eksisterende,
      verifisert_rapporteringsnoyaktighet := "0",
      feature_type := "NrlLuftspenn",
      referanse := none } }

/-- The feature `mastRow3D` converts to. -/
def mastFeature3D : Feature :=
  { geometry := .point [200, 100, 10],
    properties := .mast {
      komponentident := 0x550e8400e29b41d4a716446655440000,
      status := .eksisterende,
      verifisert_rapporteringsnoyaktighet := "0",
      feature_type := "NrlMast",
      mast_type := .lavspentmast,
      luftfartshinderlyssetting := none,
      luftfartshindermerking := none,
      hoydereferanse := none,
      vertikal_avstand := none } }

/-- The feature `mastRow2D` converts to. -/
def mastFeature2D : Feature :=
  { geometry := .point [200, 100],
    properties := .mast {
      komponentident := 0x550e8400e29b41d4a716446655440001,
      status := .eksisterende,
      verifisert_rapporteringsnoyaktighet := "0",
      feature_type := "NrlMast",
      mast_type := .lavspentmast,
      luftfartshinderlyssetting := none,
      luftfartshindermerking := none,
      hoydereferanse := none,
      vertikal_avstand := none } }

/-! ### Helper lemmas -/

theorem wrapCoordError_eq_ok {α : Type} {r : Except PyErr α} {a : α} :
    wrapCoordError r = .ok a ↔ r = .ok a := by
  cases r with
  | ok b => simp [wrapCoordError]
  | error e => cases e <;> simp [wrapCoordError]

theorem except_bind_eq_ok {ε α β : Type} {x : Except ε α} {f : α → Except ε β} {b : β} :
    (x >>= f) = .ok b ↔ ∃ a, x = .ok a ∧ f a = .ok b := by
  cases x <;> simp [Bind.bind, Except.bind]

theorem mapM_pair {ε α β : Type} (f : α → Except ε β) (a1 a2 : α) :
    [a1, a2].mapM f = f a1 >>= fun b1 => f a2 >>= fun b2 => pure [b1, b2] := by
  cases h1 : f a1 <;> cases h2 : f a2 <;>
    simp [List.mapM, List.mapM.loop, h1, h2, Bind.bind, Except.bind, pure, Except.pure]

theorem mapM_ok_cons {ε α β : Type} {f : α → Except ε β} {a : α} {l : List α} {out : List β}
    (h : (a :: l).mapM f = .ok out) :
    ∃ b tl, f a = .ok b ∧ l.mapM f = .ok tl ∧ out = b :: tl := by
  rw [← List.mapM'_eq_mapM] at h
  simp only [List.mapM'] at h
  cases h1 : f a with
  | error e => rw [h1] at h; simp [Bind.bind, Except.bind] at h
  | ok b =>
    rw [h1] at h
    simp only [Bind.bind, Except.bind] at h
    cases h2 : List.mapM' f l with
    | error e => rw [h2] at h; simp at h
    | ok tl =>
      rw [h2] at h
      simp [pure, Except.pure] at h
      exact ⟨b, tl, rfl, by rw [← List.mapM'_eq_mapM, h2], h.symm⟩

theorem unpack3_ok {vals : List ℚ} {t : ℚ × ℚ × ℚ} (h : unpack3 vals = .ok t) :
    vals = [t.1, t.2.1, t.2.2] := by
  match vals, h with
  | [x, y, z], h =>
    simp only [unpack3, Except.ok.injEq] at h
    rw [← h]

theorem unpack2_ok {vals : List ℚ} {t : ℚ × ℚ} (h : unpack2 vals = .ok t) :
    vals = [t.1, t.2] := by
  match vals, h with
  | [x, y], h =>
    simp only [unpack2, Except.ok.injEq] at h
    rw [← h]

theorem create_geometry_line_inv {c1 c2 : RawCoord} {g : Geometry} {crs : Crs}
    (h : create_geometry [c1, c2] true = .ok (g, crs)) :
    ([c1, c2].all hasZcoord = true ∧ crs = crs5972 ∧
      ∃ y1 x1 z1 y2 x2 z2,
        parse_float c1.2.1 "y" = .ok y1 ∧ parse_float c1.1 "x" = .ok x1 ∧
        parse_float c1.2.2 "z" = .ok z1 ∧
        parse_float c2.2.1 "y" = .ok y2 ∧ parse_float c2.1 "x" = .ok x2 ∧
        parse_float c2.2.2 "z" = .ok z2 ∧
        g = .lineString [[y1, x1, z1], [y2, x2, z2]]) ∨
    ([c1, c2].all hasZcoord = false ∧ crs = crs25832 ∧
      ∃ y1 x1 y2 x2,
        parse_float c1.2.1 "y" = .ok y1 ∧ parse_float c1.1 "x" = .ok x1 ∧
        parse_float c2.2.1 "y" = .ok y2 ∧ parse_float c2.1 "x" = .ok x2 ∧
        g = .lineString [[y1, x1], [y2, x2]]) := by
  simp only [create_geometry] at h
  rw [if_neg (by simp)] at h
  rw [wrapCoordError_eq_ok] at h
  by_cases hz : [c1, c2].all hasZcoord
  · left
    refine ⟨hz, ?_⟩
    rw [if_pos hz, if_pos trivial, mapM_pair] at h
    rw [except_bind_eq_ok] at h
    obtain ⟨coords, hco, hpure⟩ := h
    rw [except_bind_eq_ok] at hco
    obtain ⟨b1, hb1, hco⟩ := hco
    rw [except_bind_eq_ok] at hco
    obtain ⟨b2, hb2, hco⟩ := hco
    rw [except_bind_eq_ok] at hb1
    obtain ⟨y1, hy1, hb1⟩ := hb1
    rw [except_bind_eq_ok] at hb1
    obtain ⟨x1, hx1, hb1⟩ := hb1
    rw [except_bind_eq_ok] at hb1
    obtain ⟨z1, hz1, hb1⟩ := hb1
    rw [except_bind_eq_ok] at hb2
    obtain ⟨y2, hy2, hb2⟩ := hb2
    rw [except_bind_eq_ok] at hb2
    obtain ⟨x2, hx2, hb2⟩ := hb2
    rw [except_bind_eq_ok] at hb2
    obtain ⟨z2, hz2, hb2⟩ := hb2
    simp only [pure, Except.pure, Except.ok.injEq] at hb1 hb2 hco hpure
    subst hb1; subst hb2; subst hco
    rw [Prod.mk.injEq] at hpure
    exact ⟨hpure.2.symm, y1, x1, z1, y2, x2, z2, hy1, hx1, hz1, hy2, hx2, hz2,
      hpure.1.symm⟩
  · right
    rw [Bool.not_eq_true] at hz
    refine ⟨hz, ?_⟩
    rw [hz] at h
    rw [if_neg (by simp), if_pos trivial, mapM_pair] at h
    rw [except_bind_eq_ok] at h
    obtain ⟨coords, hco, hpure⟩ := h
    rw [except_bind_eq_ok] at hco
    obtain ⟨b1, hb1, hco⟩ := hco
    rw [except_bind_eq_ok] at hco
    obtain ⟨b2, hb2, hco⟩ := hco
    rw [except_bind_eq_ok] at hb1
    obtain ⟨y1, hy1, hb1⟩ := hb1
    rw [except_bind_eq_ok] at hb1
    obtain ⟨x1, hx1, hb1⟩ := hb1
    rw [except_bind_eq_ok] at hb2
    obtain ⟨y2, hy2, hb2⟩ := hb2
    rw [except_bind_eq_ok] at hb2
    obtain ⟨x2, hx2, hb2⟩ := hb2
    simp only [pure, Except.pure, Except.ok.injEq] at hb1 hb2 hco hpure
    subst hb1; subst hb2; subst hco
    rw [Prod.mk.injEq] at hpure
    exact ⟨hpure.2.symm, y1, x1, y2, x2, hy1, hx1, hy2, hx2, hpure.1.symm⟩

theorem create_geometry_point_inv {coords : List RawCoord} {g : Geometry} {crs : Crs}
    (h : create_geometry coords false = .ok (g, crs)) :
    (coords.all hasZcoord = true ∧ crs = crs5972 ∧
      ∃ c0 x y z, coords.head? = some c0 ∧
        parse_coordinates (tripleToList c0) = .ok [x, y, z] ∧ g = .point [y, x, z]) ∨
    (coords.all hasZcoord = false ∧ crs = crs25832 ∧
      ∃ c0 x y, coords.head? = some c0 ∧
        parse_coordinates ((tripleToList c0).take 2) = .ok [x, y] ∧ g = .point [y, x]) := by
  simp only [create_geometry] at h
  rw [if_neg (by simp)] at h
  rw [wrapCoordError_eq_ok] at h
  by_cases hz : coords.all hasZcoord
  · left
    refine ⟨hz, ?_⟩
    rw [if_pos hz, if_neg (by simp)] at h
    cases hc0 : coords.head? with
    | none => rw [hc0] at h; simp at h
    | some c0 =>
      rw [hc0] at h
      rw [except_bind_eq_ok] at h
      obtain ⟨vals, hvals, h⟩ := h
      rw [except_bind_eq_ok] at h
      obtain ⟨xyz, hxyz, h⟩ := h
      have hshape := unpack3_ok hxyz
      simp only [pure, Except.pure, Except.ok.injEq, Prod.mk.injEq] at h
      exact ⟨h.2.symm, c0, xyz.1, xyz.2.1, xyz.2.2, rfl, hshape ▸ hvals, h.1.symm⟩
  · right
    rw [Bool.not_eq_true] at hz
    refine ⟨hz, ?_⟩
    rw [hz] at h
    rw [if_neg (by simp), if_neg (by simp)] at h
    cases hc0 : coords.head? with
    | none => rw [hc0] at h; simp at h
    | some c0 =>
      rw [hc0] at h
      rw [except_bind_eq_ok] at h
      obtain ⟨vals, hvals, h⟩ := h
      rw [except_bind_eq_ok] at h
      obtain ⟨xy, hxy, h⟩ := h
      have hshape := unpack2_ok hxy
      simp only [pure, Except.pure, Except.ok.injEq, Prod.mk.injEq] at h
      exact ⟨h.2.symm, c0, xy.1, xy.2, rfl, hshape ▸ hvals, h.1.symm⟩

theorem create_geometry_arity {coords : List RawCoord} (hlen : coords.length ≠ 2) :
    create_geometry coords true = .error (.valueError "LineString requires exactly 2 points") := by
  simp only [create_geometry]
  rw [if_pos ⟨trivial, hlen⟩]

theorem invalid_ne_arity (m : String) :
    "Invalid coordinate values: " ++ m ≠ "LineString requires exactly 2 points" := by
  intro h
  have hd := congrArg String.data h
  rw [String.data_append] at hd
  rw [show "Invalid coordinate values: ".data
      = 'I' :: "nvalid coordinate values: ".data from by decide] at hd
  rw [show "LineString requires exactly 2 points".data
      = 'L' :: "ineString requires exactly 2 points".data from by decide] at hd
  simp at hd

theorem wrapCoordError_eq_error {α : Type} {r : Except PyErr α} {e : PyErr}
    (h : wrapCoordError r = .error e) :
    (∃ m, e = .valueError ("Invalid coordinate values: " ++ m)) ∨
    (r = .error e ∧ ∀ m, e ≠ .valueError m) := by
  cases r with
  | ok b => simp [wrapCoordError] at h
  | error e' =>
    cases e' with
    | valueError m =>
      left
      simp only [wrapCoordError] at h
      injection h with h
      exact ⟨m, h.symm⟩
    | keyError k =>
      right
      simp only [wrapCoordError] at h
      injection h with h
      subst h
      exact ⟨rfl, by simp⟩
    | indexError m =>
      right
      simp only [wrapCoordError] at h
      injection h with h
      subst h
      exact ⟨rfl, by simp⟩

/-- The point-building path can never produce the line-arity error. -/
theorem create_geometry_false_ne_arity (coords : List RawCoord) :
    create_geometry coords false
      ≠ .error (.valueError "LineString requires exactly 2 points") := by
  intro h
  simp only [create_geometry] at h
  rw [if_neg (by simp)] at h
  rcases wrapCoordError_eq_error h with ⟨m, hm⟩ | ⟨_, hne⟩
  · injection hm with hm
    exact invalid_ne_arity m hm.symm
  · exact hne "LineString requires exactly 2 points" rfl

/-- Constructive evaluation of the 2D line branch, used for the
mixed-elevation claim. -/
theorem create_geometry_line_2d {c1 c2 : RawCoord} {x1 y1 x2 y2 : ℚ}
    (hz : [c1, c2].all hasZcoord = false)
    (hx1 : parse_float c1.1 "x" = .ok x1) (hy1 : parse_float c1.2.1 "y" = .ok y1)
    (hx2 : parse_float c2.1 "x" = .ok x2) (hy2 : parse_float c2.2.1 "y" = .ok y2) :
    create_geometry [c1, c2] true = .ok (.lineString [[y1, x1], [y2, x2]], crs25832) := by
  simp only [create_geometry]
  rw [if_neg (by simp), hz]
  rw [if_neg (by simp), if_pos trivial, mapM_pair, hy1, hx1, hy2, hx2]
  simp [wrapCoordError, Bind.bind, Except.bind, pure, Except.pure]


theorem convert_overhead_inv {row : Row} {f : Feature} {crs : Crs}
    (h : convert_overhead_structure_rows row = .ok (f, crs)) :
    ∃ x y, rowItem row "x" = .ok x ∧ rowItem row "y" = .ok y ∧
      create_geometry [(x, y, rowGetD row "z" "")] false = .ok (f.geometry, crs) ∧
      ∃ m, f.properties = .mast m := by
  simp only [convert_overhead_structure_rows] at h
  rw [except_bind_eq_ok] at h
  obtain ⟨u, hu, h⟩ := h
  rw [except_bind_eq_ok] at h
  obtain ⟨mt, hmt, h⟩ := h
  rw [except_bind_eq_ok] at h
  obtain ⟨st, hst, h⟩ := h
  split at h
  · rw [except_bind_eq_ok] at h
    obtain ⟨v, hv, h⟩ := h
    rw [except_bind_eq_ok] at h
    obtain ⟨q, hq, h⟩ := h
    rw [except_bind_eq_ok] at h
    obtain ⟨mh, hmh, h⟩ := h
    rw [except_bind_eq_ok] at h
    obtain ⟨x, hx, h⟩ := h
    rw [except_bind_eq_ok] at h
    obtain ⟨y, hy, h⟩ := h
    rw [except_bind_eq_ok] at h
    obtain ⟨pc, hpc, h⟩ := h
    obtain ⟨pt, c⟩ := pc
    simp only [pure, Except.pure, Except.ok.injEq, Prod.mk.injEq] at h
    obtain ⟨hf, hcrs⟩ := h
    subst hcrs
    exact ⟨x, y, hx, hy, by rw [← hf]; exact hpc, by rw [← hf]; exact ⟨_, rfl⟩⟩
  · rw [except_bind_eq_ok] at h
    obtain ⟨mh, hmh, h⟩ := h
    rw [except_bind_eq_ok] at h
    obtain ⟨x, hx, h⟩ := h
    rw [except_bind_eq_ok] at h
    obtain ⟨y, hy, h⟩ := h
    rw [except_bind_eq_ok] at h
    obtain ⟨pc, hpc, h⟩ := h
    obtain ⟨pt, c⟩ := pc
    simp only [pure, Except.pure, Except.ok.injEq, Prod.mk.injEq] at h
    obtain ⟨hf, hcrs⟩ := h
    subst hcrs
    exact ⟨x, y, hx, hy, by rw [← hf]; exact hpc, by rw [← hf]; exact ⟨_, rfl⟩⟩

theorem convert_guy_inv {row : Row} {f : Feature} {crs : Crs}
    (h : convert_guy_segments_rows row = .ok (f, crs)) :
    ∃ x1 y1 x2 y2,
      rowItem row "x1" = .ok x1 ∧ rowItem row "y1" = .ok y1 ∧
      rowItem row "x2" = .ok x2 ∧ rowItem row "y2" = .ok y2 ∧
      create_geometry [(x1, y1, rowGetD row "z1" ""), (x2, y2, rowGetD row "z2" "")] true
        = .ok (f.geometry, crs) ∧
      ∃ l, f.properties = .luftspenn l ∧ l.luftspenn_type = .bardun := by
  simp only [convert_guy_segments_rows] at h
  rw [except_bind_eq_ok] at h
  obtain ⟨u, hu, h⟩ := h
  rw [except_bind_eq_ok] at h
  obtain ⟨st, hst, h⟩ := h
  rw [except_bind_eq_ok] at h
  obtain ⟨x1, hx1, h⟩ := h
  rw [except_bind_eq_ok] at h
  obtain ⟨y1, hy1, h⟩ := h
  rw [except_bind_eq_ok] at h
  obtain ⟨x2, hx2, h⟩ := h
  rw [except_bind_eq_ok] at h
  obtain ⟨y2, hy2, h⟩ := h
  rw [except_bind_eq_ok] at h
  obtain ⟨pc, hpc, h⟩ := h
  obtain ⟨ls, c⟩ := pc
  simp only [pure, Except.pure, Except.ok.injEq, Prod.mk.injEq] at h
  obtain ⟨hf, hcrs⟩ := h
  subst hcrs
  exact ⟨x1, y1, x2, y2, hx1, hy1, hx2, hy2, by rw [← hf]; exact hpc,
    by rw [← hf]; exact ⟨_, rfl, rfl⟩⟩

theorem convert_ac_inv {row : Row} {f : Feature} {crs : Crs}
    (h : convert_ac_linesegments_rows row = .ok (f, crs)) :
    ∃ x1 y1 x2 y2,
      rowItem row "x1" = .ok x1 ∧ rowItem row "y1" = .ok y1 ∧
      rowItem row "x2" = .ok x2 ∧ rowItem row "y2" = .ok y2 ∧
      create_geometry [(x1, y1, rowGetD row "z1" ""), (x2, y2, rowGetD row "z2" "")] true
        = .ok (f.geometry, crs) ∧
      ∃ l, f.properties = .luftspenn l ∧
        l.luftfartshinderlyssetting = none ∧ l.luftfartshindermerking = none := by
  simp only [convert_ac_linesegments_rows] at h
  rw [except_bind_eq_ok] at h
  obtain ⟨u, hu, h⟩ := h
  rw [except_bind_eq_ok] at h
  obtain ⟨st, hst, h⟩ := h
  rw [except_bind_eq_ok] at h
  obtain ⟨lt, hlt, h⟩ := h
  rw [except_bind_eq_ok] at h
  obtain ⟨x1, hx1, h⟩ := h
  rw [except_bind_eq_ok] at h
  obtain ⟨y1, hy1, h⟩ := h
  rw [except_bind_eq_ok] at h
  obtain ⟨x2, hx2, h⟩ := h
  rw [except_bind_eq_ok] at h
  obtain ⟨y2, hy2, h⟩ := h
  rw [except_bind_eq_ok] at h
  obtain ⟨pc, hpc, h⟩ := h
  obtain ⟨ls, c⟩ := pc
  rw [except_bind_eq_ok] at h
  obtain ⟨masts, hmasts, h⟩ := h
  split at h
  · rw [except_bind_eq_ok] at h
    obtain ⟨v, hv, h⟩ := h
    rw [except_bind_eq_ok] at h
    obtain ⟨q, hq, h⟩ := h
    rw [except_bind_eq_ok] at h
    obtain ⟨ab, hab, h⟩ := h
    simp only [pure, Except.pure, Except.ok.injEq, Prod.mk.injEq] at h
    obtain ⟨hf, hcrs⟩ := h
    subst hcrs
    refine ⟨x1, y1, x2, y2, hx1, hy1, hx2, hy2, by rw [← hf]; exact hpc, ?_⟩
    rw [← hf]
    exact ⟨_, rfl, rfl, rfl⟩
  · rw [except_bind_eq_ok] at h
    obtain ⟨ab, hab, h⟩ := h
    simp only [pure, Except.pure, Except.ok.injEq, Prod.mk.injEq] at h
    obtain ⟨hf, hcrs⟩ := h
    subst hcrs
    refine ⟨x1, y1, x2, y2, hx1, hy1, hx2, hy2, by rw [← hf]; exact hpc, ?_⟩
    rw [← hf]
    exact ⟨_, rfl, rfl, rfl⟩


theorem create_geometry_len2 {coords : List RawCoord} {g : Geometry} {crs : Crs}
    (h : create_geometry coords true = .ok (g, crs)) : coords.length = 2 := by
  by_contra hne
  rw [create_geometry_arity hne] at h
  exact absurd h (by simp)

theorem create_geometry_ok_crs {coords : List RawCoord} {il : Bool} {g : Geometry} {crs : Crs}
    (h : create_geometry coords il = .ok (g, crs)) :
    crs = (if coords.all hasZcoord then crs5972 else crs25832) := by
  cases il with
  | true =>
    obtain ⟨c1, c2, rfl⟩ := List.length_eq_two.mp (create_geometry_len2 h)
    rcases create_geometry_line_inv h with ⟨hz, hcrs, _⟩ | ⟨hz, hcrs, _⟩
    · rw [hz, if_pos rfl]; exact hcrs
    · rw [hz]; simpa using hcrs
  | false =>
    rcases create_geometry_point_inv h with ⟨hz, hcrs, _⟩ | ⟨hz, hcrs, _⟩
    · rw [hz, if_pos rfl]; exact hcrs
    · rw [hz]; simpa using hcrs

theorem create_geometry_ok_dim {coords : List RawCoord} {il : Bool} {g : Geometry} {crs : Crs}
    (h : create_geometry coords il = .ok (g, crs)) :
    geomDimOk crs.properties.name g := by
  cases il with
  | true =>
    obtain ⟨c1, c2, rfl⟩ := List.length_eq_two.mp (create_geometry_len2 h)
    rcases create_geometry_line_inv h with
      ⟨hz, hcrs, y1, x1, z1, y2, x2, z2, _, _, _, _, _, _, hg⟩ |
      ⟨hz, hcrs, y1, x1, y2, x2, _, _, _, _, hg⟩
    · subst hcrs; subst hg
      intro c hc
      simp only [List.mem_cons, List.not_mem_nil, or_false] at hc
      rcases hc with rfl | rfl <;>
        exact ⟨fun _ => rfl, fun hn => absurd hn (by decide)⟩
    · subst hcrs; subst hg
      intro c hc
      simp only [List.mem_cons, List.not_mem_nil, or_false] at hc
      rcases hc with rfl | rfl <;>
        exact ⟨fun hn => absurd hn (by decide), fun _ => rfl⟩
  | false =>
    rcases create_geometry_point_inv h with
      ⟨hz, hcrs, c0, x, y, z, hc0, hvals, hg⟩ | ⟨hz, hcrs, c0, x, y, hc0, hvals, hg⟩
    · subst hcrs; subst hg
      exact ⟨fun _ => rfl, fun hn => absurd hn (by decide)⟩
    · subst hcrs; subst hg
      exact ⟨fun hn => absurd hn (by decide), fun _ => rfl⟩

theorem process_row_ok_inv {row : Row} {f : Feature} {crs : Crs}
    (h : process_row row = .ok (f, crs)) :
    geomDimOk crs.properties.name f.geometry ∧ (crs = crs5972 ∨ crs = crs25832) := by
  simp only [process_row] at h
  split at h
  · split at h
    · exact absurd h (by simp)
    · split at h
      · obtain ⟨x1, y1, x2, y2, _, _, _, _, hcg, _⟩ := convert_guy_inv h
        refine ⟨create_geometry_ok_dim hcg, ?_⟩
        rw [create_geometry_ok_crs hcg]
        split <;> simp
      · obtain ⟨x1, y1, x2, y2, _, _, _, _, hcg, _⟩ := convert_ac_inv h
        refine ⟨create_geometry_ok_dim hcg, ?_⟩
        rw [create_geometry_ok_crs hcg]
        split <;> simp
  · split at h
    · obtain ⟨x, y, _, _, hcg, _⟩ := convert_overhead_inv h
      refine ⟨create_geometry_ok_dim hcg, ?_⟩
      rw [create_geometry_ok_crs hcg]
      split <;> simp
    · exact absurd h (by simp)


/-- The accumulation step of `firstSeen`. -/
def seenStep (acc : List String) (n : String) : List String :=
  if n ∈ acc then acc else acc ++ [n]

theorem firstSeen_eq_foldl (l : List String) : firstSeen l = l.foldl seenStep [] := rfl

theorem mem_foldl_seenStep (l : List String) :
    ∀ (acc : List String) (n : String), n ∈ l.foldl seenStep acc ↔ n ∈ acc ∨ n ∈ l := by
  induction l with
  | nil => intro acc n; simp
  | cons m l ih =>
    intro acc n
    rw [List.foldl_cons, ih]
    unfold seenStep
    split <;> rename_i hm
    · constructor
      · rintro (h | h)
        · exact .inl h
        · exact .inr (.tail _ h)
      · rintro (h | h)
        · exact .inl h
        · rcases List.mem_cons.mp h with rfl | h
          · exact .inl hm
          · exact .inr h
    · simp only [List.mem_append, List.mem_singleton, List.mem_cons]
      tauto

theorem nodup_foldl_seenStep (l : List String) :
    ∀ acc : List String, acc.Nodup → (l.foldl seenStep acc).Nodup := by
  induction l with
  | nil => intro acc h; exact h
  | cons m l ih =>
    intro acc hacc
    rw [List.foldl_cons]
    apply ih
    unfold seenStep
    split
    · exact hacc
    · rename_i hm
      simp [List.nodup_append, hacc, hm]

theorem firstSeen_nodup (l : List String) : (firstSeen l).Nodup :=
  nodup_foldl_seenStep l [] List.nodup_nil

theorem firstSeen_mem {l : List String} {n : String} : n ∈ firstSeen l ↔ n ∈ l := by
  rw [firstSeen_eq_foldl, mem_foldl_seenStep]
  simp

theorem firstSeen_append_singleton (l : List String) (n : String) :
    firstSeen (l ++ [n]) = seenStep (firstSeen l) n := by
  rw [firstSeen_eq_foldl, List.foldl_append, List.foldl_cons, List.foldl_nil,
    firstSeen_eq_foldl]

theorem insertByCrs_mapform (ks : List String) (hnd : ks.Nodup)
    (F : String → List Feature) (n : String) (f : Feature) :
    insertByCrs (ks.map fun k => (k, F k)) n f
      = if n ∈ ks
        then ks.map fun k => (k, if k = n then F k ++ [f] else F k)
        else (ks.map fun k => (k, F k)) ++ [(n, [f])] := by
  induction ks with
  | nil => simp [insertByCrs]
  | cons k ks ih =>
    rw [List.nodup_cons] at hnd
    simp only [List.map_cons, insertByCrs]
    by_cases hk : k = n
    · subst hk
      rw [if_pos rfl, if_pos (List.mem_cons_self _ _)]
      simp only [List.map_cons, if_pos rfl]
      congr 1
      apply List.map_congr_left
      intro a ha
      rw [if_neg]
      intro heq
      exact hnd.1 (heq ▸ ha)
    · rw [if_neg hk, ih hnd.2]
      by_cases hmem : n ∈ ks
      · rw [if_pos hmem, if_pos (List.mem_cons_of_mem _ hmem)]
        simp only [List.map_cons, if_neg hk]
      · rw [if_neg hmem, if_neg ?_]
        · rfl
        · intro hc
          rcases List.mem_cons.mp hc with rfl | hc
          · exact hk rfl
          · exact hmem hc

/-- The per-pair accumulation step of the grouper. -/
def groupStep (acc : List (String × List Feature)) (p : Feature × Crs) :
    List (String × List Feature) :=
  insertByCrs acc p.2.properties.name p.1

/-- The bucket of features converted to CRS name `n`, in input order. -/
def featuresFor (n : String) (pairs : List (Feature × Crs)) : List Feature :=
  (pairs.filter fun p => p.2.properties.name = n).map Prod.fst

theorem featuresFor_nil_of_not_mem {n : String} {pairs : List (Feature × Crs)}
    (h : n ∉ crsNames pairs) : featuresFor n pairs = [] := by
  unfold featuresFor
  rw [List.filter_eq_nil_iff.mpr, List.map_nil]
  intro p hp
  simp only [decide_eq_true_eq]
  intro hep
  exact h (hep ▸ List.mem_map_of_mem (fun q => q.2.properties.name) hp)

theorem groupAcc_eq (pairs : List (Feature × Crs)) :
    pairs.foldl groupStep []
      = (firstSeen (crsNames pairs)).map fun n => (n, featuresFor n pairs) := by
  induction pairs using List.reverseRecOn with
  | nil => simp [firstSeen, featuresFor, crsNames]
  | append_singleton pairs p ih =>
    rw [List.foldl_append, List.foldl_cons, List.foldl_nil, ih]
    have hnames : crsNames (pairs ++ [p]) = crsNames pairs ++ [p.2.properties.name] := by
      simp [crsNames]
    rw [hnames, firstSeen_append_singleton]
    unfold seenStep groupStep
    rw [insertByCrs_mapform _ (firstSeen_nodup _)]
    by_cases hmem : p.2.properties.name ∈ firstSeen (crsNames pairs)
    · rw [if_pos hmem, if_pos hmem]
      apply List.map_congr_left
      intro k hk
      have : featuresFor k (pairs ++ [p])
          = if k = p.2.properties.name then featuresFor k pairs ++ [p.1]
            else featuresFor k pairs := by
        unfold featuresFor
        rw [List.filter_append, List.map_append]
        by_cases hkp : k = p.2.properties.name
        · rw [if_pos hkp]
          congr 1
          simp [hkp]
        · rw [if_neg hkp]
          have hfil : List.filter (fun q => decide (q.2.properties.name = k)) [p] = [] := by
            have hd : decide (p.2.properties.name = k) = false :=
              decide_eq_false fun hc => hkp hc.symm
            simp [List.filter, hd]
          rw [hfil, List.map_nil, List.append_nil]
      rw [this]
    · rw [if_neg hmem, if_neg hmem, List.map_append]
      congr 1
      · apply List.map_congr_left
        intro k hk
        have hkp : k ≠ p.2.properties.name := fun hc => hmem (hc ▸ hk)
        unfold featuresFor
        rw [List.filter_append, List.map_append]
        have hfil : List.filter (fun q => decide (q.2.properties.name = k)) [p] = [] := by
          have hd : decide (p.2.properties.name = k) = false :=
            decide_eq_false fun hc => hkp hc.symm
          simp [List.filter, hd]
        rw [hfil, List.map_nil, List.append_nil]
      · simp only [List.map_cons, List.map_nil]
        have hnot : p.2.properties.name ∉ crsNames pairs :=
          fun hc => hmem (firstSeen_mem.mpr hc)
        have h1 : featuresFor (p.2.properties.name) (pairs ++ [p])
            = featuresFor (p.2.properties.name) pairs ++ [p.1] := by
          unfold featuresFor
          rw [List.filter_append, List.map_append]
          congr 1
          simp
        rw [h1, featuresFor_nil_of_not_mem hnot, List.nil_append]

theorem mapM_ok_nil_inv {ε α β : Type} {f : α → Except ε β} {out : List β}
    (h : ([] : List α).mapM f = .ok out) : out = [] := by
  simp [List.mapM, List.mapM.loop, pure, Except.pure] at h
  exact h

theorem processLoop_go {rows : List Row} {pairs : List (Feature × Crs)}
    (h : rows.mapM process_row = .ok pairs) :
    ∀ acc, List.foldlM
        (fun acc row => do
          let (feature, crs) ← process_row row
          pure (insertByCrs acc crs.properties.name feature)) acc rows
      = .ok (pairs.foldl groupStep acc) := by
  induction rows generalizing pairs with
  | nil =>
    intro acc
    have hnil := mapM_ok_nil_inv h
    subst hnil
    simp [List.foldlM, pure, Except.pure]
  | cons r rows ih =>
    intro acc
    obtain ⟨p, tl, hp, htl, rfl⟩ := mapM_ok_cons h
    obtain ⟨pf, pc⟩ := p
    rw [List.foldlM_cons, hp]
    simp only [Bind.bind, Except.bind, pure, Except.pure]
    rw [List.foldl_cons]
    exact ih htl _

theorem processLoop_eq {rows : List Row} {pairs : List (Feature × Crs)}
    (h : rows.mapM process_row = .ok pairs) :
    processLoop rows = .ok (pairs.foldl groupStep []) := by
  unfold processLoop
  exact processLoop_go h []

theorem process_csv_eq_groupSpec {rows : List Row} {pairs : List (Feature × Crs)}
    (h : rows.mapM process_row = .ok pairs) :
    _process_csv_file rows = .ok (groupSpec pairs) := by
  simp only [_process_csv_file, Bind.bind, processLoop_eq h, Except.bind]
  rw [groupAcc_eq]
  unfold groupSpec featuresFor
  simp [List.map_map, pure, Except.pure]


theorem map_feature_status_not_mem {v : Option String} (hv : v ∉ statusKeys) :
    map_feature_status v
      = .error (.valueError ("Unknown Status: " ++ optRepr v)) := by
  simp only [statusKeys, List.mem_cons, List.not_mem_nil, or_false] at hv
  push_neg at hv
  obtain ⟨h1, h2, h3, h4, h5, h6, h7, h8⟩ := hv
  rw [map_feature_status, if_neg (by tauto), if_neg (by tauto), if_neg (by tauto),
    if_neg (by tauto)]

theorem map_mast_type_not_mem {v : Option String} (hv : v ∉ mastKeys) :
    map_mast_type v
      = .error (.valueError ("Unknown Masttype: " ++ optRepr v)) := by
  simp only [mastKeys, List.mem_cons, List.not_mem_nil, or_false] at hv
  push_neg at hv
  obtain ⟨h1, h2, h3⟩ := hv
  rw [map_mast_type, if_neg (by tauto), if_neg (by tauto), if_neg (by tauto)]

theorem map_luftspenn_type_not_mem {v : Option String} (hv : v ∉ spanKeys) :
    map_luftspenn_type v
      = .error (.valueError ("Unknown Luftspenntype: " ++ optRepr v)) := by
  simp only [spanKeys, List.mem_cons, List.not_mem_nil, or_false] at hv
  push_neg at hv
  obtain ⟨h1, h2, h3⟩ := hv
  rw [map_luftspenn_type, if_neg (by tauto), if_neg (by tauto), if_neg (by tauto)]

theorem map_lighting_kind_not_mem {s : String} (hs : s ≠ "") (hmem : s ∉ lightingKeys) :
    map_lighting_kind (some s) = none := by
  simp only [lightingKeys, List.mem_cons, List.not_mem_nil, or_false] at hmem
  push_neg at hmem
  obtain ⟨h1, h2, h3, h4, h5, h6, h7, h8⟩ := hmem
  have ht : truthy (some s) = true := by simp [truthy, hs]
  rw [map_lighting_kind, if_neg (by simp [ht]), if_neg (by simp [h1]),
    if_neg (by simp [h2]), if_neg (by simp [h3]), if_neg (by simp [h4]),
    if_neg (by simp [h5]), if_neg (by simp [h6]), if_neg (by simp [h7]),
    if_neg (by simp [h8])]

theorem map_marking_kind_not_mem {s : String} (hs : s ≠ "") (hmem : s ∉ markingKeys) :
    map_marking_kind (some s) = none := by
  simp only [markingKeys, List.mem_cons, List.not_mem_nil, or_false] at hmem
  push_neg at hmem
  obtain ⟨h1, h2⟩ := hmem
  have ht : truthy (some s) = true := by simp [truthy, hs]
  rw [map_marking_kind, if_neg (by simp [ht]), if_neg (by simp [h1]),
    if_neg (by simp [h2])]

theorem get_uuid_go_hit {row : Row} {f : String} {rest : List String} {v : String} {u : Nat}
    (hv : rowGet row f = some v) (hne : v ≠ "") (hu : pyUUID? v = some u) :
    get_uuid_go row (f :: rest) = some u := by
  conv_lhs => rw [get_uuid_go]
  rw [hv]
  simp [hne, hu]

theorem get_uuid_go_skip {row : Row} {f : String} {rest : List String}
    (hskip : ∀ v, rowGet row f = some v → v = "" ∨ pyUUID? v = none) :
    get_uuid_go row (f :: rest) = get_uuid_go row rest := by
  conv_lhs => rw [get_uuid_go]
  cases hv : rowGet row f with
  | none => rfl
  | some v =>
    rcases hskip v hv with rfl | hp
    · simp
    · by_cases hve : v = ""
      · simp [hve]
      · simp [hve, hp]

theorem get_uuid_of_go_some {row : Row} {fields : List String} {u : Nat}
    (h : get_uuid_go row fields = some u) : get_uuid row fields = .ok u := by
  unfold get_uuid
  rw [h]

theorem get_uuid_of_go_none {row : Row} {fields : List String}
    (h : get_uuid_go row fields = none) :
    get_uuid row fields = .error (.valueError
      ("No valid UUID found in fields: " ++ joinWith ", " fields)) := by
  unfold get_uuid
  rw [h]

theorem mapM_ok_mem {ε α β : Type} {f : α → Except ε β} {l : List α} {out : List β}
    (h : l.mapM f = .ok out) : ∀ b ∈ out, ∃ a ∈ l, f a = .ok b := by
  induction l generalizing out with
  | nil =>
    have hnil := mapM_ok_nil_inv h
    subst hnil
    intro b hb
    cases hb
  | cons a l ih =>
    obtain ⟨b0, tl, hb0, htl, rfl⟩ := mapM_ok_cons h
    intro b hb
    rcases List.mem_cons.mp hb with rfl | hb
    · exact ⟨a, List.mem_cons_self _ _, hb0⟩
    · obtain ⟨a', ha', hfa'⟩ := ih htl b hb
      exact ⟨a', List.mem_cons_of_mem _ ha', hfa'⟩

theorem process_row_unknown {row : Row}
    (h1 : rowGet row "Tabell ID" ≠ some "261")
    (h2 : rowGet row "Tabell ID" ≠ some "109") :
    process_row row = .error (.valueError
      ("Unknown Tabell ID: " ++ optRepr (rowGet row "Tabell ID"))) := by
  simp only [process_row]
  rw [if_neg h1, if_neg h2]


/-- C1: for every geometry built by `create_geometry` (point or line), the
CRS tag is `EPSG:5972` iff every supplied coordinate has a non-empty third
component and `EPSG:25832` otherwise; no other CRS string is ever
produced, and the choice is a function of elevation presence alone. -/
theorem c1_crs_selection (coordinates : List RawCoord) (is_line : Bool)
    (g : Geometry) (crs : Crs)
    (h : create_geometry coordinates is_line = .ok (g, crs)) :
    (crs.properties.name = "EPSG:5972" ↔ coordinates.all hasZcoord = true) ∧
    (crs.properties.name = "EPSG:25832" ↔ ¬ coordinates.all hasZcoord = true) ∧
    (crs.properties.name = "EPSG:5972" ∨ crs.properties.name = "EPSG:25832") := by
  have hc := create_geometry_ok_crs h
  by_cases hz : coordinates.all hasZcoord = true
  · rw [if_pos hz] at hc
    subst hc
    refine ⟨⟨fun _ => hz, fun _ => rfl⟩, ⟨fun hn => absurd hn (by decide), fun hn => absurd hz hn⟩, .inl rfl⟩
  · rw [if_neg hz] at hc
    subst hc
    refine ⟨⟨fun hn => absurd hn (by decide), fun hzz => absurd hzz hz⟩, ⟨fun _ => hz, fun _ => rfl⟩, .inr rfl⟩

theorem c1_crs_selection_witness :
    (crs5972.properties.name = "EPSG:5972"
        ↔ [((some "100", some "200", some "10") : RawCoord)].all hasZcoord = true) ∧
    (crs5972.properties.name = "EPSG:25832"
        ↔ ¬ [((some "100", some "200", some "10") : RawCoord)].all hasZcoord = true) ∧
    (crs5972.properties.name = "EPSG:5972" ∨ crs5972.properties.name = "EPSG:25832") :=
  c1_crs_selection [(some "100", some "200", some "10")] false
    (.point [200, 100, 10]) crs5972 (by decide)

/-- C2: every coordinate triple the geometry builder emits swaps the first
two source components: concretely, `x=100, y=200` with no elevation gives
point `[200, 100]` under `EPSG:25832` and `x=100, y=200, z=10` gives
`[200, 100, 10]` under `EPSG:5972`; and every successfully built
LineString consists of the `(y, x)` or `(y, x, z)` reordering of both
source coordinate triples. -/
theorem c2_axis_swap (c1 c2 : RawCoord) (cs : List (List ℚ)) (crs : Crs)
    (h : create_geometry [c1, c2] true = .ok (.lineString cs, crs)) :
    (∃ y1 x1 y2 x2,
        parse_float c1.2.1 "y" = .ok y1 ∧ parse_float c1.1 "x" = .ok x1 ∧
        parse_float c2.2.1 "y" = .ok y2 ∧ parse_float c2.1 "x" = .ok x2 ∧
        (cs = [[y1, x1], [y2, x2]] ∨
          ∃ z1 z2, parse_float c1.2.2 "z" = .ok z1 ∧
            parse_float c2.2.2 "z" = .ok z2 ∧
            cs = [[y1, x1, z1], [y2, x2, z2]])) ∧
    create_geometry [(some "100", some "200", some "")] false
      = .ok (.point [200, 100], crs25832) ∧
    create_geometry [(some "100", some "200", some "10")] false
      = .ok (.point [200, 100, 10], crs5972) := by
  refine ⟨?_, by decide, by decide⟩
  rcases create_geometry_line_inv h with
    ⟨_, _, y1, x1, z1, y2, x2, z2, hy1, hx1, hz1, hy2, hx2, hz2, hg⟩ |
    ⟨_, _, y1, x1, y2, x2, hy1, hx1, hy2, hx2, hg⟩
  · injection hg with hg
    exact ⟨y1, x1, y2, x2, hy1, hx1, hy2, hx2, .inr ⟨z1, z2, hz1, hz2, hg⟩⟩
  · injection hg with hg
    exact ⟨y1, x1, y2, x2, hy1, hx1, hy2, hx2, .inl hg⟩

theorem c2_axis_swap_witness :
    (∃ y1 x1 y2 x2,
        parse_float (some "2") "y" = .ok y1 ∧ parse_float (some "1") "x" = .ok x1 ∧
        parse_float (some "4") "y" = .ok y2 ∧ parse_float (some "3") "x" = .ok x2 ∧
        (([[2, 1], [4, 3]] : List (List ℚ)) = [[y1, x1], [y2, x2]] ∨
          ∃ z1 z2, parse_float (some "") "z" = .ok z1 ∧
            parse_float (some "") "z" = .ok z2 ∧
            ([[2, 1], [4, 3]] : List (List ℚ)) = [[y1, x1, z1], [y2, x2, z2]])) ∧
    create_geometry [(some "100", some "200", some "")] false
      = .ok (.point [200, 100], crs25832) ∧
    create_geometry [(some "100", some "200", some "10")] false
      = .ok (.point [200, 100, 10], crs5972) :=
  c2_axis_swap (some "1", some "2", some "") (some "3", some "4", some "")
    [[2, 1], [4, 3]] crs25832 (by decide)

/-- C3 (code evaluation at the failing behaviour): on the AC-line path the
assembled `Luftspenn` feature's lighting and marking attributes are absent
for every input record, because the source passes the literal field-name
strings to the optional resolvers instead of the record's field values —
even though the resolver itself maps the record's accepted value (here
`Lyssatt`, `Markør`) to an enum member.  This refutes the claim that the
attributes are resolved from the record's lighting and marking fields. -/
theorem c3_ac_lighting_always_absent (row : Row) (f : Feature) (crs : Crs)
    (h : convert_ac_linesegments_rows row = .ok (f, crs)) :
    (∃ l, f.properties = .luftspenn l ∧
        l.luftfartshinderlyssetting = none ∧ l.luftfartshindermerking = none) ∧
    rowGet acRowLit "Luftfartshinderlyssetting(NRL)" = some "Lyssatt" ∧
    map_lighting_kind (rowGet acRowLit "Luftfartshinderlyssetting(NRL)")
      = some .lyssatt ∧
    map_marking_kind (rowGet acRowLit "Luftfartshindermerking(NRL)")
      = some .markor := by
  obtain ⟨x1, y1, x2, y2, _, _, _, _, _, hl⟩ := convert_ac_inv h
  exact ⟨hl, by decide, by decide, by decide⟩

theorem c3_ac_lighting_always_absent_witness :
    (∃ l, ({ geometry := .lineString [[200, 100, 10], [400, 300, 20]],
             properties := .luftspenn {
               luftspenn_type := .lavspent,
               komponentident := 0x550e8400e29b41d4a716446655440002,
               status := .eksisterende,
               verifisert_rapporteringsnoyaktighet := "0",
               feature_type := "NrlLuftspenn" } } : Feature).properties
          = .luftspenn l ∧
        l.luftfartshinderlyssetting = none ∧ l.luftfartshindermerking = none) ∧
    rowGet acRowLit "Luftfartshinderlyssetting(NRL)" = some "Lyssatt" ∧
    map_lighting_kind (rowGet acRowLit "Luftfartshinderlyssetting(NRL)")
      = some .lyssatt ∧
    map_marking_kind (rowGet acRowLit "Luftfartshindermerking(NRL)")
      = some .markor :=
  c3_ac_lighting_always_absent acRowLit
    { geometry := .lineString [[200, 100, 10], [400, 300, 20]],
      properties := .luftspenn {
        luftspenn_type := .lavspent,
        komponentident := 0x550e8400e29b41d4a716446655440002,
        status := .eksisterende,
        verifisert_rapporteringsnoyaktighet := "0",
        feature_type := "NrlLuftspenn" } }
    crs5972 (by decide)

/-- C4: when every record converts, the grouper's output is exactly the
spec-side description `groupSpec`: collections in first-occurrence order
of their CRS tags, features in input-record order within each collection,
nothing deduplicated, dropped or moved; every feature's geometry
dimensionality is consistent with its collection's CRS; and the
two-structure batch (one with elevation, one without) yields exactly two
collections of one feature each. -/
theorem c4_grouping (rows : List Row) (pairs : List (Feature × Crs))
    (h : rows.mapM process_row = .ok pairs) :
    _process_csv_file rows = .ok (groupSpec pairs) ∧
    (∀ fc ∈ groupSpec pairs, ∀ f ∈ fc.features,
        geomDimOk fc.crs.properties.name f.geometry) ∧
    _process_csv_file [mastRow3D, mastRow2D]
      = .ok [{ crs := crs5972, features := [mastFeature3D] },
             { crs := crs25832, features := [mastFeature2D] }] := by
  refine ⟨process_csv_eq_groupSpec h, ?_, by decide⟩
  intro fc hfc f hf
  simp only [groupSpec, List.mem_map] at hfc
  obtain ⟨n, hn, rfl⟩ := hfc
  simp only [List.mem_map] at hf
  obtain ⟨p, hp, rfl⟩ := hf
  rw [List.mem_filter] at hp
  obtain ⟨hpmem, hpname⟩ := hp
  obtain ⟨row, hrow, hpr⟩ := mapM_ok_mem h p hpmem
  have hdim := (process_row_ok_inv hpr).1
  have hname : p.2.properties.name = n := by simpa using hpname
  show geomDimOk n p.1.geometry
  rw [← hname]
  exact hdim

theorem c4_grouping_witness :
    _process_csv_file [mastRow3D, mastRow2D]
      = .ok (groupSpec [(mastFeature3D, crs5972), (mastFeature2D, crs25832)]) ∧
    (∀ fc ∈ groupSpec [(mastFeature3D, crs5972), (mastFeature2D, crs25832)],
        ∀ f ∈ fc.features, geomDimOk fc.crs.properties.name f.geometry) ∧
    _process_csv_file [mastRow3D, mastRow2D]
      = .ok [{ crs := crs5972, features := [mastFeature3D] },
             { crs := crs25832, features := [mastFeature2D] }] :=
  c4_grouping [mastRow3D, mastRow2D]
    [(mastFeature3D, crs5972), (mastFeature2D, crs25832)] (by decide)

/-- C5: a batch holding a record whose `Tabell ID` discriminator is
neither `261` (line/guy segment) nor `109` (overhead structure) aborts at
the first such record with the unknown-record-type error carrying the
offending discriminator; no collections are returned and the features
already converted for earlier rows are discarded. -/
theorem c5_unknown_record_aborts (rows1 : List Row) (row : Row) (rows2 : List Row)
    (pairs : List (Feature × Crs))
    (hprev : rows1.mapM process_row = .ok pairs)
    (h1 : rowGet row "Tabell ID" ≠ some "261")
    (h2 : rowGet row "Tabell ID" ≠ some "109") :
    _process_csv_file (rows1 ++ row :: rows2)
      = .error (.valueError
          ("Unknown Tabell ID: " ++ optRepr (rowGet row "Tabell ID"))) := by
  have hrow := process_row_unknown h1 h2
  unfold _process_csv_file processLoop
  rw [List.foldlM_append, processLoop_go hprev []]
  simp only [Bind.bind, Except.bind, List.foldlM_cons, hrow]

theorem c5_unknown_record_aborts_witness :
    _process_csv_file ([mastRow3D] ++ unknownRow :: [mastRow2D])
      = .error (.valueError
          ("Unknown Tabell ID: " ++ optRepr (rowGet unknownRow "Tabell ID"))) :=
  c5_unknown_record_aborts [mastRow3D] unknownRow [mastRow2D]
    [(mastFeature3D, crs5972)] (by decide) (by decide) (by decide)

/-- C6: the required enum resolvers (status, mast type, span type) fail
with the unknown-value error on every input outside their accepted-string
sets, including the empty and absent value, while the optional resolvers
(lighting, marking) return absent both for empty input and, without
failing, for non-empty unrecognized input; in particular the same empty
input that fails the status resolver makes the lighting resolver return
absent. -/
theorem c6_enum_asymmetry :
    (∀ v, v ∉ statusKeys →
        map_feature_status v
          = .error (.valueError ("Unknown Status: " ++ optRepr v))) ∧
    (∀ v, v ∉ mastKeys →
        map_mast_type v
          = .error (.valueError ("Unknown Masttype: " ++ optRepr v))) ∧
    (∀ v, v ∉ spanKeys →
        map_luftspenn_type v
          = .error (.valueError ("Unknown Luftspenntype: " ++ optRepr v))) ∧
    map_feature_status (some "") = .error (.valueError "Unknown Status: ") ∧
    map_feature_status none = .error (.valueError "Unknown Status: None") ∧
    map_lighting_kind (some "") = none ∧ map_lighting_kind none = none ∧
    map_marking_kind (some "") = none ∧ map_marking_kind none = none ∧
    (∀ s, s ≠ "" → s ∉ lightingKeys → map_lighting_kind (some s) = none) ∧
    (∀ s, s ≠ "" → s ∉ markingKeys → map_marking_kind (some s) = none) := by
  refine ⟨fun v hv => map_feature_status_not_mem hv,
    fun v hv => map_mast_type_not_mem hv,
    fun v hv => map_luftspenn_type_not_mem hv,
    by decide, by decide, rfl, rfl, rfl, rfl,
    fun s hs hmem => map_lighting_kind_not_mem hs hmem,
    fun s hs hmem => map_marking_kind_not_mem hs hmem⟩

theorem c6_enum_asymmetry_witness :
    map_feature_status (some "Bogus")
      = .error (.valueError "Unknown Status: Bogus") ∧
    map_lighting_kind (some "Bogus") = none := by
  obtain ⟨h1, _, _, _, _, _, _, _, _, hl, _⟩ := c6_enum_asymmetry
  exact ⟨h1 (some "Bogus") (by decide), hl "Bogus" (by decide) (by decide)⟩

/-- C7: identifier resolution scans the candidate fields in priority
order: a field whose truthy value parses as a UUID yields that value; a
field that is absent, empty, or malformed is skipped; when no candidate
succeeds the error names all attempted fields.  Concretely, candidates
`(A="invalid", B="550e8400-e29b-41d4-a716-446655440000")` resolve to B's
value, and two invalid candidates fail listing both fields. -/
theorem c7_uuid_fallback :
    (∀ (row : Row) (f : String) (rest : List String) (v : String) (u : Nat),
        rowGet row f = some v → v ≠ "" → pyUUID? v = some u →
        get_uuid row (f :: rest) = .ok u) ∧
    (∀ (row : Row) (f : String) (rest : List String),
        (∀ v, rowGet row f = some v → v = "" ∨ pyUUID? v = none) →
        get_uuid_go row (f :: rest) = get_uuid_go row rest) ∧
    (∀ (row : Row) (fields : List String), get_uuid_go row fields = none →
        get_uuid row fields = .error (.valueError
          ("No valid UUID found in fields: " ++ joinWith ", " fields))) ∧
    get_uuid [("A", some "invalid"),
        ("B", some "550e8400-e29b-41d4-a716-446655440000")] ["A", "B"]
      = .ok 0x550e8400e29b41d4a716446655440000 ∧
    get_uuid [("A", some "invalid"), ("B", some "also-invalid")] ["A", "B"]
      = .error (.valueError "No valid UUID found in fields: A, B") := by
  refine ⟨?_, ?_, ?_, by decide, by decide⟩
  · intro row f rest v u hv hne hu
    exact get_uuid_of_go_some (get_uuid_go_hit hv hne hu)
  · intro row f rest hskip
    exact get_uuid_go_skip hskip
  · intro row fields h
    exact get_uuid_of_go_none h

theorem c7_uuid_fallback_witness :
    get_uuid [("A", some ""), ("B", some "550e8400-e29b-41d4-a716-446655440000")]
        ["B"] = .ok 0x550e8400e29b41d4a716446655440000 := by
  obtain ⟨hhit, _, _, _, _⟩ := c7_uuid_fallback
  exact hhit [("A", some ""), ("B", some "550e8400-e29b-41d4-a716-446655440000")]
    "B" [] "550e8400-e29b-41d4-a716-446655440000"
    0x550e8400e29b41d4a716446655440000 (by decide) (by decide) (by decide)

/-- C8: `parse_float` accepts both `.` and `,` as decimal separator —
`"123,45"` and `"123.45"` both parse to 123.45 — because the comma is
normalized to a dot before parsing (a text succeeds exactly when its
comma-normalized form parses); an absent value or non-numeric text fails
with an error naming the field. -/
theorem c8_parse_float :
    parse_float (some "123,45") "f" = .ok 123.45 ∧
    parse_float (some "123.45") "f" = .ok 123.45 ∧
    (∀ fn, parse_float none fn = .error (.valueError ("Missing " ++ fn))) ∧
    (∀ s fn q, parse_float (some s) fn = .ok q
        ↔ pyFloat? (commaToDot s) = some q) ∧
    (∀ s fn, pyFloat? (commaToDot s) = none →
        parse_float (some s) fn
          = .error (.valueError (fn ++ " is not a valid number: " ++ s))) := by
  have h1245 : (123.45 : ℚ) = mkRat 2469 20 := by
    norm_num [Rat.mkRat_eq_div]
  refine ⟨by rw [h1245]; decide, by rw [h1245]; decide, fun fn => rfl, ?_, ?_⟩
  · intro s fn q
    simp only [parse_float, floatOfStr?]
    cases h : pyFloat? (commaToDot s) <;> simp
  · intro s fn h
    simp only [parse_float, floatOfStr?, h]

theorem c8_parse_float_witness :
    parse_float none "vertical" = .error (.valueError "Missing vertical") ∧
    parse_float (some "abc") "fld"
      = .error (.valueError "fld is not a valid number: abc") := by
  obtain ⟨_, _, hnone, _, hbad⟩ := c8_parse_float
  exact ⟨hnone "vertical", hbad "abc" "fld" (by decide)⟩


/-- C9: when building a line, every input without exactly 2 coordinate
triples fails with the line-arity error; the point-building path can never
produce that error (the count check applies only to lines); and every
successful line/guy record conversion yields one `Luftspenn` feature with
a `LineString` geometry of exactly 2 positions. -/
theorem c9_line_arity :
    (∀ coords : List RawCoord, coords.length ≠ 2 →
        create_geometry coords true
          = .error (.valueError "LineString requires exactly 2 points")) ∧
    (∀ coords : List RawCoord,
        create_geometry coords false
          ≠ .error (.valueError "LineString requires exactly 2 points")) ∧
    (∀ (row : Row) (f : Feature) (crs : Crs),
        convert_guy_segments_rows row = .ok (f, crs) →
        ∃ cs, f.geometry = .lineString cs ∧ cs.length = 2 ∧
          ∃ l, f.properties = .luftspenn l) ∧
    (∀ (row : Row) (f : Feature) (crs : Crs),
        convert_ac_linesegments_rows row = .ok (f, crs) →
        ∃ cs, f.geometry = .lineString cs ∧ cs.length = 2 ∧
          ∃ l, f.properties = .luftspenn l) := by
  refine ⟨fun coords h => create_geometry_arity h,
    fun coords => create_geometry_false_ne_arity coords, ?_, ?_⟩
  · intro row f crs h
    obtain ⟨x1, y1, x2, y2, _, _, _, _, hcg, l, hl, _⟩ := convert_guy_inv h
    rcases create_geometry_line_inv hcg with
      ⟨_, _, y1', x1', z1', y2', x2', z2', _, _, _, _, _, _, hg⟩ |
      ⟨_, _, y1', x1', y2', x2', _, _, _, _, hg⟩
    · exact ⟨_, hg, rfl, l, hl⟩
    · exact ⟨_, hg, rfl, l, hl⟩
  · intro row f crs h
    obtain ⟨x1, y1, x2, y2, _, _, _, _, hcg, l, hl, _⟩ := convert_ac_inv h
    rcases create_geometry_line_inv hcg with
      ⟨_, _, y1', x1', z1', y2', x2', z2', _, _, _, _, _, _, hg⟩ |
      ⟨_, _, y1', x1', y2', x2', _, _, _, _, hg⟩
    · exact ⟨_, hg, rfl, l, hl⟩
    · exact ⟨_, hg, rfl, l, hl⟩

theorem c9_line_arity_witness :
    create_geometry [((some "1", some "2", some "") : RawCoord)] true
      = .error (.valueError "LineString requires exactly 2 points") ∧
    (∃ cs, guyFeature.geometry = .lineString cs ∧ cs.length = 2 ∧
      ∃ l, guyFeature.properties = .luftspenn l) := by
  obtain ⟨harity, _, hguy, _⟩ := c9_line_arity
  exact ⟨harity [(some "1", some "2", some "")] (by decide),
    hguy guyRow guyFeature crs25832 (by decide)⟩

/-- C10: a two-point line input with mixed elevation (exactly one of the
two coordinates has a non-empty third component) whose x and y components
parse as numbers does not fail: the supplied z values are silently
discarded and a 2D LineString tagged `EPSG:25832` is emitted. -/
theorem c10_mixed_elevation (c1 c2 : RawCoord) (x1 y1 x2 y2 : ℚ)
    (hmix : (hasZcoord c1 = true ∧ hasZcoord c2 = false) ∨
            (hasZcoord c1 = false ∧ hasZcoord c2 = true))
    (hx1 : parse_float c1.1 "x" = .ok x1) (hy1 : parse_float c1.2.1 "y" = .ok y1)
    (hx2 : parse_float c2.1 "x" = .ok x2) (hy2 : parse_float c2.2.1 "y" = .ok y2) :
    create_geometry [c1, c2] true
      = .ok (.lineString [[y1, x1], [y2, x2]], crs25832) := by
  have hz : [c1, c2].all hasZcoord = false := by
    rcases hmix with ⟨h1, h2⟩ | ⟨h1, h2⟩ <;> simp [List.all, h1, h2]
  exact create_geometry_line_2d hz hx1 hy1 hx2 hy2

theorem c10_mixed_elevation_witness :
    create_geometry [((some "1", some "2", some "10") : RawCoord),
        ((some "3", some "4", some "") : RawCoord)] true
      = .ok (.lineString [[2, 1], [4, 3]], crs25832) :=
  c10_mixed_elevation (some "1", some "2", some "10") (some "3", some "4", some "")
    1 2 3 4 (.inl ⟨by decide, by decide⟩)
    (by decide) (by decide) (by decide) (by decide)

end Nrl
